import Mathlib

/-!
Verification of the MEV simulator core: AMM pool math, strategy statistics,
and the simulator lifecycle.

A shallow embedding of the repository's core data model and operations:
`TokenPair` with `calculate_price` and `calculate_output_amount`
(constant-product AMM swap math), `ArbitragePath.is_valid`,
`StrategyStats` with `update_success`, `update_failure` and `reset`, and the
`Simulator` lifecycle state machine.  C++ `double` values are read in exact
arithmetic as rationals (`ℚ`); `uint64_t` counters are `ℕ` with the one
subtraction that can wrap modelled explicitly modulo `2 ^ 64`.  Where the
source guards a division, the guard is embedded as written; a second, checked
family of definitions (`…?`, returning `Option`) flags any division whose
divisor is zero, so absence of a division fault is a provable statement.
-/

namespace mev

/-- DEX types (enum `DexType`). -/
inductive DexType where
  | UNISWAP_V2
  | UNISWAP_V3
  | SUSHISWAP
  | BALANCER
  | CURVE
  | BANCOR
deriving DecidableEq, Repr

/-- Token pair information (struct `TokenPair`): reserves, fee and cached
price are C++ `double`s, read here in exact arithmetic as rationals. -/
structure TokenPair where
  token0 : String
  token1 : String
  pair_address : String
  dex_type : DexType
  reserve0 : ℚ
  reserve1 : ℚ
  fee_percent : ℚ
  price : ℚ
deriving DecidableEq, Repr

/-- Embedding of `TokenPair::calculate_price`: `reserve0 / reserve1`, guarded to return
`0.0` when `reserve1 == 0`. -/
def TokenPair.calculate_price (p : TokenPair) : ℚ :=
  if p.reserve1 = 0 then 0 else p.reserve0 / p.reserve1

/-- Embedding of `TokenPair::calculate_output_amount`: constant-product swap output with
the fee deducted from the input (`input_with_fee = input * (1 - fee/100)`),
returning `0.0` when either reserve is zero. -/
def TokenPair.calculate_output_amount (p : TokenPair) (input_amount : ℚ)
    (is_token0_to_token1 : Bool) : ℚ :=
  if is_token0_to_token1 then
    if p.reserve0 = 0 ∨ p.reserve1 = 0 then 0
    else
      (input_amount * (1 - p.fee_percent / 100) * p.reserve1) /
        (p.reserve0 + input_amount * (1 - p.fee_percent / 100))
  else
    if p.reserve1 = 0 ∨ p.reserve0 = 0 then 0
    else
      (input_amount * (1 - p.fee_percent / 100) * p.reserve0) /
        (p.reserve1 + input_amount * (1 - p.fee_percent / 100))

/-- Checked division: `none` exactly when the divisor is zero, i.e. when the
corresponding C++ floating-point division has a zero divisor and exact
arithmetic yields no finite value. -/
def qdiv? (a b : ℚ) : Option ℚ :=
  if b = 0 then none else some (a / b)

/-- Checked reading of `TokenPair::calculate_price`: every division of the
source is routed through `qdiv?`, so the result is `some` iff no division by
zero is evaluated. -/
def TokenPair.calculate_price? (p : TokenPair) : Option ℚ :=
  if p.reserve1 = 0 then some 0 else qdiv? p.reserve0 p.reserve1

/-- Checked reading of `TokenPair::calculate_output_amount`: the one division
of each branch is routed through `qdiv?`. -/
def TokenPair.calculate_output_amount? (p : TokenPair) (input_amount : ℚ)
    (is_token0_to_token1 : Bool) : Option ℚ :=
  if is_token0_to_token1 then
    if p.reserve0 = 0 ∨ p.reserve1 = 0 then some 0
    else
      qdiv? (input_amount * (1 - p.fee_percent / 100) * p.reserve1)
        (p.reserve0 + input_amount * (1 - p.fee_percent / 100))
  else
    if p.reserve1 = 0 ∨ p.reserve0 = 0 then some 0
    else
      qdiv? (input_amount * (1 - p.fee_percent / 100) * p.reserve0)
        (p.reserve1 + input_amount * (1 - p.fee_percent / 100))

/-- Arbitrage path (struct `ArbitragePath`). -/
structure ArbitragePath where
  tokens : List String
  pairs : List TokenPair
  expected_profit_eth : ℚ
  required_input_eth : ℚ
  gas_estimate : ℚ
deriving DecidableEq, Repr

/-- Embedding of `ArbitragePath::is_valid`:
`tokens.size() >= 3 && pairs.size() >= 2 && expected_profit_eth > 0`. -/
def ArbitragePath.is_valid (p : ArbitragePath) : Bool :=
  decide (3 ≤ p.tokens.length) && decide (2 ≤ p.pairs.length) &&
    decide (0 < p.expected_profit_eth)

/-- The value `std::numeric_limits<double>::max()` read exactly:
`(2^53 - 1) * 2^971`. -/
def DBL_MAX : ℚ := (2 ^ 53 - 1) * 2 ^ 971

/-- Strategy statistics (struct `StrategyStats`); `uint64_t` counters as `ℕ`,
`double` fields as `ℚ`. -/
structure StrategyStats where
  opportunities_detected : ℕ
  opportunities_executed : ℕ
  successful_executions : ℕ
  failed_executions : ℕ
  total_profit_eth : ℚ
  total_gas_used_eth : ℚ
  avg_execution_time_us : ℚ
  success_rate : ℚ
  avg_detection_latency_us : ℚ
  avg_execution_latency_us : ℚ
  min_execution_latency_us : ℚ
  max_execution_latency_us : ℚ
  min_profit_eth : ℚ
  max_profit_eth : ℚ
  avg_profit_eth : ℚ
deriving DecidableEq, Repr

/-- The in-class member initializers of `StrategyStats` (also the exact state
`reset()` produces): counters zero, averages zero, running minima at
`DBL_MAX`. -/
def resetStats : StrategyStats where
  opportunities_detected := 0
  opportunities_executed := 0
  successful_executions := 0
  failed_executions := 0
  total_profit_eth := 0
  total_gas_used_eth := 0
  avg_execution_time_us := 0
  success_rate := 0
  avg_detection_latency_us := 0
  avg_execution_latency_us := 0
  min_execution_latency_us := DBL_MAX
  max_execution_latency_us := 0
  min_profit_eth := DBL_MAX
  max_profit_eth := 0
  avg_profit_eth := 0

/-- The `uint64_t` subtraction of `1`, which wraps at `0`:
`n - 1` computed modulo `2 ^ 64`. -/
def u64sub1 (n : ℕ) : ℕ :=
  (n + (2 ^ 64 - 1)) % 2 ^ 64

/-- Embedding of `StrategyStats::update_success(profit_eth, gas_used_eth,
execution_time_us)`: increments `successful_executions`, accumulates totals,
updates the running execution-time average weighted by the new
`successful_executions`, the running profit average, min/max profit and
latency, and recomputes `success_rate = successful_executions /
opportunities_executed` (the member increments are applied in source order,
so every later field reads the already-updated counters and totals). -/
def update_success (profit_eth gas_used_eth execution_time_us : ℚ)
    (s : StrategyStats) : StrategyStats :=
  { s with
    successful_executions := s.successful_executions + 1
    total_profit_eth := s.total_profit_eth + profit_eth
    total_gas_used_eth := s.total_gas_used_eth + gas_used_eth
    avg_execution_time_us :=
      (s.avg_execution_time_us * (u64sub1 (s.successful_executions + 1) : ℚ) +
          execution_time_us) / ((s.successful_executions + 1 : ℕ) : ℚ)
    avg_profit_eth :=
      (s.total_profit_eth + profit_eth) / ((s.successful_executions + 1 : ℕ) : ℚ)
    min_profit_eth := min s.min_profit_eth profit_eth
    max_profit_eth := max s.max_profit_eth profit_eth
    min_execution_latency_us := min s.min_execution_latency_us execution_time_us
    max_execution_latency_us := max s.max_execution_latency_us execution_time_us
    success_rate :=
      ((s.successful_executions + 1 : ℕ) : ℚ) / (s.opportunities_executed : ℚ) }

/-- Embedding of `StrategyStats::update_failure(execution_time_us)`: increments
`failed_executions`, updates the running execution-time average weighted by
`opportunities_executed`, recomputes `success_rate`, and updates min/max
latency. -/
def update_failure (execution_time_us : ℚ) (s : StrategyStats) :
    StrategyStats :=
  { s with
    failed_executions := s.failed_executions + 1
    avg_execution_time_us :=
      (s.avg_execution_time_us * (u64sub1 s.opportunities_executed : ℚ) +
          execution_time_us) / (s.opportunities_executed : ℚ)
    success_rate :=
      (s.successful_executions : ℚ) / (s.opportunities_executed : ℚ)
    min_execution_latency_us := min s.min_execution_latency_us execution_time_us
    max_execution_latency_us := max s.max_execution_latency_us execution_time_us }

/-- Checked reading of `StrategyStats::update_success`: every division of the
source is routed through `qdiv?`, so the call succeeds iff no division has a
zero divisor. -/
def update_success? (profit_eth gas_used_eth execution_time_us : ℚ)
    (s : StrategyStats) : Option StrategyStats := do
  let se := s.successful_executions + 1
  let avg_exec ← qdiv?
    (s.avg_execution_time_us * (u64sub1 se : ℚ) + execution_time_us)
    ((se : ℕ) : ℚ)
  let avg_profit ← qdiv? (s.total_profit_eth + profit_eth) ((se : ℕ) : ℚ)
  let rate ← qdiv? ((se : ℕ) : ℚ) (s.opportunities_executed : ℚ)
  pure { s with
    successful_executions := se
    total_profit_eth := s.total_profit_eth + profit_eth
    total_gas_used_eth := s.total_gas_used_eth + gas_used_eth
    avg_execution_time_us := avg_exec
    avg_profit_eth := avg_profit
    min_profit_eth := min s.min_profit_eth profit_eth
    max_profit_eth := max s.max_profit_eth profit_eth
    min_execution_latency_us := min s.min_execution_latency_us execution_time_us
    max_execution_latency_us := max s.max_execution_latency_us execution_time_us
    success_rate := rate }

/-- Checked reading of `StrategyStats::update_failure`: both divisions are
routed through `qdiv?`. -/
def update_failure? (execution_time_us : ℚ) (s : StrategyStats) :
    Option StrategyStats := do
  let avg_exec ← qdiv?
    (s.avg_execution_time_us * (u64sub1 s.opportunities_executed : ℚ) +
      execution_time_us)
    (s.opportunities_executed : ℚ)
  let rate ← qdiv? (s.successful_executions : ℚ) (s.opportunities_executed : ℚ)
  pure { s with
    failed_executions := s.failed_executions + 1
    avg_execution_time_us := avg_exec
    success_rate := rate
    min_execution_latency_us := min s.min_execution_latency_us execution_time_us
    max_execution_latency_us := max s.max_execution_latency_us execution_time_us }

/-- Embedding of `StrategyStats::reset()`: reassigns every field of the struct to its
initial value. -/
def StrategyStats.reset (s : StrategyStats) : StrategyStats :=
  { s with
    opportunities_detected := 0
    opportunities_executed := 0
    successful_executions := 0
    failed_executions := 0
    total_profit_eth := 0
    total_gas_used_eth := 0
    avg_execution_time_us := 0
    success_rate := 0
    avg_detection_latency_us := 0
    avg_execution_latency_us := 0
    min_execution_latency_us := DBL_MAX
    max_execution_latency_us := 0
    min_profit_eth := DBL_MAX
    max_profit_eth := 0
    avg_profit_eth := 0 }

/-- Per-strategy configuration, struct `StrategyConfig` of `config.hpp`;
only the fields relevant to the claims are carried, with `double`s as `ℚ`. -/
structure StrategyConfig where
  enabled : Bool
  min_profit_eth : ℚ
  max_slippage_percent : ℚ
  target_dexes : List String
  gas_limit : ℕ
  max_gas_price_gwei : ℕ
  bundle_timeout_ms : ℕ
deriving DecidableEq, Repr

/-- The state a `BaseStrategy` object owns: its name, configuration, enabled
flag and statistics (the data members of `BaseStrategy`). -/
structure BaseStrategyState where
  name : String
  config : StrategyConfig
  enabled : Bool
  stats : StrategyStats
deriving DecidableEq, Repr

/-- Modelled from the spec: the body of `BaseStrategy::reset_stats` is not in
the sources (only its declaration is); per the spec, `reset()` zeroes the
strategy's stats but preserves its configuration, so the wrapper applies
`StrategyStats.reset` to the `stats` member and leaves every other member
untouched. -/
def reset_stats (b : BaseStrategyState) : BaseStrategyState :=
  { b with stats := b.stats.reset }

/-- One execution attempt: either `update_success(profit, gas, latency)` or
`update_failure(latency)` is invoked. -/
inductive Attempt where
  | success (profit_eth gas_used_eth execution_time_us : ℚ)
  | failure (execution_time_us : ℚ)
deriving DecidableEq, Repr

/-- The latency argument an attempt records. -/
def Attempt.latency : Attempt → ℚ
  | .success _ _ t => t
  | .failure t => t

/-- Dispatch an attempt to the update the source invokes for it. -/
def applyAttempt (a : Attempt) (s : StrategyStats) : StrategyStats :=
  match a with
  | .success p g t => update_success p g t s
  | .failure t => update_failure t s

/-- Run a list of attempts; before the `k`-th call `opportunities_executed`
is set to `k`, the number of attempts recorded so far (the attempt counter
the spec's execution path maintains). -/
def runAttemptsAux (s : StrategyStats) (n : ℕ) : List Attempt → StrategyStats
  | [] => s
  | a :: rest =>
      runAttemptsAux (applyAttempt a { s with opportunities_executed := n + 1 })
        (n + 1) rest

/-- Run a list of attempts starting from the reset state. -/
def runAttempts (l : List Attempt) : StrategyStats :=
  runAttemptsAux resetStats 0 l

/-- An all-success attempt from a `(profit, gas, latency)` triple. -/
def successAttempt (x : ℚ × ℚ × ℚ) : Attempt :=
  Attempt.success x.1 x.2.1 x.2.2

/-- Simulation lifecycle states (enum `SimulationState`). -/
inductive SimulationState where
  | INITIALIZING
  | RUNNING
  | PAUSED
  | STOPPING
  | STOPPED
  | ERROR
deriving DecidableEq, Repr

/-- Lifecycle events the `Simulator` reacts to: the public lifecycle calls
(`initialize` succeeding or failing, `start`, `stop`, `pause`, `resume`), the
main loop's tick boundaries, and an unrecoverable fault. -/
inductive SimEvent where
  | initialize_ok
  | initialize_fail
  | start
  | stop
  | pause
  | resume
  | tick_begin
  | tick_end
  | fault
deriving DecidableEq, Repr

/-- Modelled from the spec: the `Simulator` method bodies are not in the
sources (only the class declaration in `config.cpp` is), so the lifecycle
observable state is modelled from the spec: the atomic `SimulationState`,
whether `initialize()` has succeeded, and whether a tick of the main loop is
in flight. -/
structure SimulatorModel where
  state : SimulationState
  init_done : Bool
  tick_in_flight : Bool
deriving DecidableEq, Repr

/-- Modelled from the spec: the `Simulator` lifecycle transition function.
A successful `initialize()` (re)starts the machine in `INITIALIZING` with
init recorded; a failed one faults to `ERROR`.  `start()` moves
`INITIALIZING` to `RUNNING` only once init has succeeded and otherwise does
nothing.  `pause`/`resume` toggle `RUNNING ⇄ PAUSED` at tick boundaries
(the loops check the pause flag cooperatively between ticks).  `stop()` from
`RUNNING` moves to `STOPPING`; the machine reaches `STOPPED` only at a tick
boundary, after any in-flight tick has completed (graceful shutdown drains
in-flight work).  Any unrecoverable fault moves to `ERROR`. -/
def simStep (m : SimulatorModel) : SimEvent → SimulatorModel
  | .initialize_ok => ⟨.INITIALIZING, true, false⟩
  | .initialize_fail => ⟨.ERROR, false, false⟩
  | .start =>
      if m.init_done ∧ m.state = .INITIALIZING then
        { m with state := .RUNNING }
      else m
  | .stop =>
      if m.state = .RUNNING then { m with state := .STOPPING } else m
  | .pause =>
      if m.state = .RUNNING ∧ m.tick_in_flight = false then
        { m with state := .PAUSED }
      else m
  | .resume =>
      if m.state = .PAUSED then { m with state := .RUNNING } else m
  | .tick_begin =>
      if m.state = .RUNNING ∧ m.tick_in_flight = false then
        { m with tick_in_flight := true }
      else m
  | .tick_end =>
      if m.state = .STOPPING then
        ⟨.STOPPED, m.init_done, false⟩
      else { m with tick_in_flight := false }
  | .fault => ⟨.ERROR, m.init_done, false⟩

/-- The lifecycle transitions the spec admits as the pairs
(state before, state after): staying put, `INITIALIZING → RUNNING`,
`RUNNING ⇄ PAUSED`, `RUNNING → STOPPING → STOPPED`, a fault into `ERROR`
from anywhere, and a fresh `initialize()` re-entering `INITIALIZING` from
anywhere. -/
def allowedTransition (a b : SimulationState) : Prop :=
  a = b ∨
    (a = .INITIALIZING ∧ b = .RUNNING) ∨
    (a = .RUNNING ∧ b = .PAUSED) ∨
    (a = .PAUSED ∧ b = .RUNNING) ∨
    (a = .RUNNING ∧ b = .STOPPING) ∨
    (a = .STOPPING ∧ b = .STOPPED) ∨
    b = .ERROR ∨ b = .INITIALIZING

instance (a b : SimulationState) : Decidable (allowedTransition a b) := by
  unfold allowedTransition
  infer_instance

/-- A concrete liquid pool used to instantiate universally quantified
theorems: reserves `2` and `3`, zero fee. -/
def demoPool : TokenPair where
  token0 := "WETH"
  token1 := "USDC"
  pair_address := "0xabc"
  dex_type := .UNISWAP_V2
  reserve0 := 2
  reserve1 := 3
  fee_percent := 0
  price := 0

/-- A concrete pool with a 0.3% fee, reserves `1000`/`1000`. -/
def feePool : TokenPair where
  token0 := "WETH"
  token1 := "DAI"
  pair_address := "0xdef"
  dex_type := .SUSHISWAP
  reserve0 := 1000
  reserve1 := 1000
  fee_percent := 3 / 10
  price := 0

/-- A concrete pool with an empty `reserve0` side. -/
def emptyPool : TokenPair where
  token0 := "WETH"
  token1 := "USDC"
  pair_address := "0x0"
  dex_type := .UNISWAP_V2
  reserve0 := 0
  reserve1 := 5
  fee_percent := 3 / 10
  price := 0

/-- A concrete path whose token sequence does not close into a cycle, yet
meets every condition `is_valid` actually checks. -/
def openPath : ArbitragePath where
  tokens := ["WETH", "USDC", "DAI"]
  pairs := [demoPool, feePool]
  expected_profit_eth := 1
  required_input_eth := 1
  gas_estimate := 0

/-- On a pool with nonzero reserves, the token0→token1 branch of
`calculate_output_amount` is the unguarded constant-product expression. -/
lemma output_amount_true (p : TokenPair) (h0 : p.reserve0 ≠ 0)
    (h1 : p.reserve1 ≠ 0) (x : ℚ) :
    p.calculate_output_amount x true =
      x * (1 - p.fee_percent / 100) * p.reserve1 /
        (p.reserve0 + x * (1 - p.fee_percent / 100)) := by
  simp [TokenPair.calculate_output_amount, h0, h1]

/-- On a pool with nonzero reserves, the token1→token0 branch of
`calculate_output_amount` is the unguarded constant-product expression. -/
lemma output_amount_false (p : TokenPair) (h0 : p.reserve0 ≠ 0)
    (h1 : p.reserve1 ≠ 0) (x : ℚ) :
    p.calculate_output_amount x false =
      x * (1 - p.fee_percent / 100) * p.reserve0 /
        (p.reserve1 + x * (1 - p.fee_percent / 100)) := by
  simp [TokenPair.calculate_output_amount, h0, h1]

/-- The constant-product output expression is strictly increasing in the
input amount. -/
lemma cp_mono (f r0 r1 x y : ℚ) (hf : 0 < f) (h0 : 0 < r0) (h1 : 0 < r1)
    (hx : 0 < x) (hxy : x < y) :
    x * f * r1 / (r0 + x * f) < y * f * r1 / (r0 + y * f) := by
  have hdx : 0 < r0 + x * f := by positivity
  have hdy : 0 < r0 + y * f := by nlinarith
  rw [div_lt_div_iff₀ hdx hdy]
  nlinarith [mul_pos (mul_pos (mul_pos hf h1) h0) (sub_pos.2 hxy)]

/-- The constant-product output expression is strictly below the opposite
reserve. -/
lemma cp_lt_reserve (f r0 r1 x : ℚ) (hf : 0 < f) (h0 : 0 < r0) (h1 : 0 < r1)
    (hx : 0 < x) :
    x * f * r1 / (r0 + x * f) < r1 := by
  have hd : 0 < r0 + x * f := by positivity
  rw [div_lt_iff₀ hd]
  nlinarith [mul_pos h1 h0]

/-- With `fee_percent < 100` the fee multiplier `1 - fee/100` is positive. -/
lemma fee_multiplier_pos (p : TokenPair) (hf1 : p.fee_percent < 100) :
    0 < 1 - p.fee_percent / 100 := by
  have : p.fee_percent / 100 < 1 := by
    linarith [(div_lt_one (by norm_num : (0:ℚ) < 100)).2 hf1]
  linarith

/-- Closed form of the round trip: swapping `x` token0→token1 and the result
back token1→token0 gives `f² x r0 / (r0 + x f (1 + f))`. -/
lemma roundtrip_closed_form (f r0 r1 x : ℚ) (hf : 0 < f) (h0 : 0 < r0)
    (h1 : 0 < r1) (hx : 0 < x) :
    (x * f * r1 / (r0 + x * f)) * f * r0 /
        (r1 + (x * f * r1 / (r0 + x * f)) * f)
      = f * f * x * r0 / (r0 + x * f + x * f * f) := by
  have hdx : (r0 + x * f) ≠ 0 := by positivity
  have hd2 : (r1 + (x * f * r1 / (r0 + x * f)) * f) ≠ 0 := by positivity
  have hd3 : (r0 + x * f + x * f * f) ≠ 0 := by positivity
  field_simp
  ring

/-- The round trip on an unchanged pool strictly loses value whenever the
fee multiplier is in `(0, 1]`: slippage alone makes it strict even at fee
zero. -/
lemma roundtrip_core_lt (f r0 r1 x : ℚ) (hf : 0 < f) (hfle : f ≤ 1)
    (h0 : 0 < r0) (h1 : 0 < r1) (hx : 0 < x) :
    (x * f * r1 / (r0 + x * f)) * f * r0 /
        (r1 + (x * f * r1 / (r0 + x * f)) * f) < x := by
  rw [roundtrip_closed_form f r0 r1 x hf h0 h1 hx]
  have hd : 0 < r0 + x * f + x * f * f := by positivity
  rw [div_lt_iff₀ hd]
  nlinarith [mul_nonneg (mul_nonneg hx.le h0.le)
      (sub_nonneg.2 (mul_le_one₀ hfle hf.le hfle)),
    mul_pos (mul_pos hx hx) hf]

/-- A `uint64_t` decrement of a nonzero value below `2 ^ 64` does not wrap. -/
lemma u64sub1_succ (n : ℕ) (h : n + 1 < 2 ^ 64) : u64sub1 (n + 1) = n := by
  unfold u64sub1
  omega

/-- Invariant of an all-success attempt run: `successful_executions` counts
the attempts, and the running execution-time average times the count equals
the accumulated latencies (the weighted form of the incremental mean, with
the weight `successful_executions`). -/
lemma runAux_success (l : List (ℚ × ℚ × ℚ)) :
    ∀ (s : StrategyStats) (k : ℕ),
      s.successful_executions + l.length < 2 ^ 64 →
      (runAttemptsAux s k (l.map successAttempt)).successful_executions
          = s.successful_executions + l.length ∧
      (runAttemptsAux s k (l.map successAttempt)).avg_execution_time_us *
          ((s.successful_executions + l.length : ℕ) : ℚ)
        = s.avg_execution_time_us * ((s.successful_executions : ℕ) : ℚ) +
            (l.map fun x => x.2.2).sum := by
  induction l with
  | nil =>
    intro s k h
    simp [runAttemptsAux]
  | cons a rest ih =>
    intro s k h
    simp only [List.length_cons] at h
    have hse : s.successful_executions + 1 < 2 ^ 64 := by omega
    have hcast : ((s.successful_executions + 1 : ℕ) : ℚ) ≠ 0 := by
      exact_mod_cast Nat.succ_ne_zero s.successful_executions
    simp only [List.map_cons, List.sum_cons, List.length_cons, runAttemptsAux,
      applyAttempt, successAttempt]
    obtain ⟨ih1, ih2⟩ :=
      ih (update_success a.1 a.2.1 a.2.2
            { s with opportunities_executed := k + 1 })
        (k + 1)
        (by simp only [update_success]; omega)
    simp only [update_success, u64sub1_succ _ hse] at ih1 ih2 ⊢
    constructor
    · rw [ih1]
      omega
    · have hlen : s.successful_executions + (rest.length + 1)
          = s.successful_executions + 1 + rest.length := by omega
      rw [hlen, ih2, div_mul_cancel₀ _ hcast]
      ring

/-- C1.  For every pool with positive reserves and `fee_percent ∈ [0,100)`,
`calculate_output_amount` is strictly increasing in the input amount in
either direction over positive inputs, and its result stays strictly below
the reserve of the output token. -/
theorem swap_output_strict_mono_and_bounded (p : TokenPair)
    (h0 : 0 < p.reserve0) (h1 : 0 < p.reserve1)
    (_hf0 : 0 ≤ p.fee_percent) (hf1 : p.fee_percent < 100) :
    (∀ (d : Bool) (x y : ℚ), 0 < x → x < y →
        p.calculate_output_amount x d < p.calculate_output_amount y d) ∧
    (∀ x : ℚ, 0 < x → p.calculate_output_amount x true < p.reserve1) ∧
    (∀ x : ℚ, 0 < x → p.calculate_output_amount x false < p.reserve0) := by
  have hf : 0 < 1 - p.fee_percent / 100 := fee_multiplier_pos p hf1
  have h0' := ne_of_gt h0
  have h1' := ne_of_gt h1
  refine ⟨?_, ?_, ?_⟩
  · intro d x y hx hxy
    cases d
    · rw [output_amount_false p h0' h1', output_amount_false p h0' h1']
      exact cp_mono _ _ _ _ _ hf h1 h0 hx hxy
    · rw [output_amount_true p h0' h1', output_amount_true p h0' h1']
      exact cp_mono _ _ _ _ _ hf h0 h1 hx hxy
  · intro x hx
    rw [output_amount_true p h0' h1']
    exact cp_lt_reserve _ _ _ _ hf h0 h1 hx
  · intro x hx
    rw [output_amount_false p h0' h1']
    exact cp_lt_reserve _ _ _ _ hf h1 h0 hx

/-- Witness for C1 on the concrete pool `demoPool`. -/
theorem swap_output_strict_mono_and_bounded_witness :
    demoPool.calculate_output_amount 1 true
        < demoPool.calculate_output_amount 2 true ∧
      demoPool.calculate_output_amount 1 true < demoPool.reserve1 :=
  ⟨(swap_output_strict_mono_and_bounded demoPool (by norm_num [demoPool])
      (by norm_num [demoPool]) (by norm_num [demoPool])
      (by norm_num [demoPool])).1 true 1 2 (by norm_num) (by norm_num),
   (swap_output_strict_mono_and_bounded demoPool (by norm_num [demoPool])
      (by norm_num [demoPool]) (by norm_num [demoPool])
      (by norm_num [demoPool])).2.1 1 (by norm_num)⟩

/-- C2 counterexample: `openPath` has three distinct tokens (its first and
last tokens differ, so the cycle does not close), yet `is_valid` returns
`true` — the source checks only `tokens.size() >= 3 && pairs.size() >= 2 &&
expected_profit_eth > 0` and never compares first and last token. -/
theorem is_valid_no_cycle_check_counterexample :
    openPath.is_valid = true ∧
      openPath.tokens.head? ≠ openPath.tokens.getLast? := by
  decide

/-- C2 amended.  `ArbitragePath::is_valid` returns `true` exactly when the
path has at least 3 tokens, at least 2 pairs, and positive
`expected_profit_eth`; closure of the token cycle is not checked. -/
theorem is_valid_iff_lengths_and_profit (p : ArbitragePath) :
    p.is_valid = true ↔
      3 ≤ p.tokens.length ∧ 2 ≤ p.pairs.length ∧
        0 < p.expected_profit_eth := by
  simp [ArbitragePath.is_valid, and_assoc]

/-- C3 counterexample: with the attempt counter maintained as the claim
describes, one failure with latency `10` followed by one success with latency
`20` leaves `avg_execution_time_us = 20`, not the arithmetic mean `15`:
`update_success` renormalizes the running average by `successful_executions`
(here `1`), discarding the failure's contribution. -/
theorem avg_execution_time_mixed_counterexample :
    (runAttempts [Attempt.failure 10,
        Attempt.success 1 1 20]).avg_execution_time_us
      ≠ (10 + 20) / 2 := by
  norm_num [runAttempts, runAttemptsAux, applyAttempt, update_failure,
    update_success, resetStats, u64sub1, DBL_MAX]

/-- C3 amended.  When every execution attempt is a success, the updates do
implement the incremental mean: after any nonempty all-success attempt
sequence run from the reset state (with the attempt counter maintained),
`avg_execution_time_us` equals the arithmetic mean of the recorded latencies.
For mixed sequences this fails, because `update_success` weights the running
average by `successful_executions` while `update_failure` weights it by
`opportunities_executed`. -/
theorem avg_execution_time_all_success_mean (l : List (ℚ × ℚ × ℚ))
    (hne : l ≠ []) (hlen : l.length < 2 ^ 64) :
    (runAttempts (l.map successAttempt)).avg_execution_time_us
      = (l.map fun x => x.2.2).sum / (l.length : ℚ) := by
  obtain ⟨-, h2⟩ := runAux_success l resetStats 0
    (by simp only [resetStats]; omega)
  have hlen0 : (l.length : ℚ) ≠ 0 := by
    exact_mod_cast (List.length_pos.2 hne).ne'
  rw [eq_div_iff hlen0]
  simpa [runAttempts, resetStats] using h2

/-- Witness for C3 amended: a single success with latency `10`. -/
theorem avg_execution_time_all_success_mean_witness :
    (runAttempts ([((0:ℚ), (0:ℚ), (10:ℚ))].map successAttempt)).avg_execution_time_us
      = ([((0:ℚ), (0:ℚ), (10:ℚ))].map fun x => x.2.2).sum /
          (([((0:ℚ), (0:ℚ), (10:ℚ))] : List (ℚ × ℚ × ℚ)).length : ℚ) :=
  avg_execution_time_all_success_mean [((0:ℚ), (0:ℚ), (10:ℚ))]
    (by simp) (by norm_num)

/-- C4.  On a pool with positive reserves and `fee_percent ∈ [0,100)`,
swapping a positive `x` token0→token1 and feeding the output back
token1→token0 on the same unchanged pool returns at most `x`, and strictly
less than `x` when the fee is positive (indeed the loss is strict even at
fee zero, because the first swap moves no reserves here yet still pays
slippage on the way back). -/
theorem swap_roundtrip_le (p : TokenPair)
    (h0 : 0 < p.reserve0) (h1 : 0 < p.reserve1)
    (hf0 : 0 ≤ p.fee_percent) (hf1 : p.fee_percent < 100)
    (x : ℚ) (hx : 0 < x) :
    p.calculate_output_amount (p.calculate_output_amount x true) false ≤ x ∧
      (0 < p.fee_percent →
        p.calculate_output_amount
          (p.calculate_output_amount x true) false < x) := by
  have hf : 0 < 1 - p.fee_percent / 100 := fee_multiplier_pos p hf1
  have hfle : 1 - p.fee_percent / 100 ≤ 1 := by
    have : 0 ≤ p.fee_percent / 100 := by positivity
    linarith
  have h0' := ne_of_gt h0
  have h1' := ne_of_gt h1
  have key :
      p.calculate_output_amount (p.calculate_output_amount x true) false
        < x := by
    rw [output_amount_true p h0' h1', output_amount_false p h0' h1']
    exact roundtrip_core_lt _ _ _ _ hf hfle h0 h1 hx
  exact ⟨key.le, fun _ => key⟩

/-- Witness for C4 on the concrete pool `feePool` with input `10`. -/
theorem swap_roundtrip_le_witness :
    feePool.calculate_output_amount
        (feePool.calculate_output_amount 10 true) false ≤ 10 :=
  (swap_roundtrip_le feePool (by norm_num [feePool]) (by norm_num [feePool])
    (by norm_num [feePool]) (by norm_num [feePool]) 10 (by norm_num)).1

/-- C5.  Three `update_success` calls from the reset state with profits
`1, 2, 3` (any gas and latency arguments) leave `avg_profit_eth = 2`,
`min_profit_eth = 1`, `max_profit_eth = 3`, `successful_executions = 3`. -/
theorem update_success_profits_one_two_three (g1 t1 g2 t2 g3 t3 : ℚ) :
    (update_success 3 g3 t3 (update_success 2 g2 t2
        (update_success 1 g1 t1 resetStats))).avg_profit_eth = 2 ∧
    (update_success 3 g3 t3 (update_success 2 g2 t2
        (update_success 1 g1 t1 resetStats))).min_profit_eth = 1 ∧
    (update_success 3 g3 t3 (update_success 2 g2 t2
        (update_success 1 g1 t1 resetStats))).max_profit_eth = 3 ∧
    (update_success 3 g3 t3 (update_success 2 g2 t2
        (update_success 1 g1 t1 resetStats))).successful_executions = 3 := by
  refine ⟨?_, ?_, ?_, ?_⟩ <;>
    simp [update_success, resetStats, DBL_MAX, min_def, max_def] <;> norm_num

/-- C6.  `calculate_price` returns `reserve0 / reserve1` whenever
`reserve1 > 0`, and `0` when `reserve1 = 0`. -/
theorem calculate_price_spec (p : TokenPair) :
    (0 < p.reserve1 → p.calculate_price = p.reserve0 / p.reserve1) ∧
      (p.reserve1 = 0 → p.calculate_price = 0) := by
  constructor
  · intro h
    simp [TokenPair.calculate_price, ne_of_gt h]
  · intro h
    simp [TokenPair.calculate_price, h]

/-- Witness for C6 on the concrete pool `demoPool`. -/
theorem calculate_price_spec_witness :
    demoPool.calculate_price = demoPool.reserve0 / demoPool.reserve1 :=
  (calculate_price_spec demoPool).1 (by norm_num [demoPool])

/-- C7.  On a pool with a zero reserve on either side, `calculate_price` and
`calculate_output_amount` return `0` for every input and direction, and both
are total without ever evaluating a division whose divisor is zero: their
checked readings return `some 0`. -/
theorem zero_reserve_yields_zero (p : TokenPair)
    (h : p.reserve0 = 0 ∨ p.reserve1 = 0) :
    p.calculate_price = 0 ∧ p.calculate_price? = some 0 ∧
      ∀ (x : ℚ) (d : Bool),
        p.calculate_output_amount x d = 0 ∧
          p.calculate_output_amount? x d = some 0 := by
  rcases h with h | h
  · refine ⟨?_, ?_, ?_⟩
    · simp [TokenPair.calculate_price, h]
    · by_cases h1 : p.reserve1 = 0
      · simp [TokenPair.calculate_price?, h1]
      · simp [TokenPair.calculate_price?, h1, qdiv?, h]
    · intro x d
      cases d <;>
        simp [TokenPair.calculate_output_amount,
          TokenPair.calculate_output_amount?, h]
  · refine ⟨?_, ?_, ?_⟩
    · simp [TokenPair.calculate_price, h]
    · simp [TokenPair.calculate_price?, h]
    · intro x d
      cases d <;>
        simp [TokenPair.calculate_output_amount,
          TokenPair.calculate_output_amount?, h]

/-- Witness for C7 on the concrete pool `emptyPool` (zero `reserve0`). -/
theorem zero_reserve_yields_zero_witness :
    emptyPool.calculate_price = 0 ∧
      emptyPool.calculate_price? = some 0 ∧
      emptyPool.calculate_output_amount 7 true = 0 ∧
      emptyPool.calculate_output_amount? 7 true = some 0 := by
  have h := zero_reserve_yields_zero emptyPool (Or.inl rfl)
  exact ⟨h.1, h.2.1, (h.2.2 7 true).1, (h.2.2 7 true).2⟩

/-- C8.  `StrategyStats::reset` is idempotent — indeed constant, always
producing the zeroed statistics record — and the strategy-level reset
touches only the `stats` member, preserving name, configuration and the
enabled flag. -/
theorem reset_idempotent_and_preserves_config (s : StrategyStats)
    (b : BaseStrategyState) :
    s.reset.reset = s.reset ∧ s.reset = resetStats ∧
      (reset_stats b).stats = b.stats.reset ∧
      (reset_stats b).config = b.config ∧
      (reset_stats b).name = b.name ∧
      (reset_stats b).enabled = b.enabled :=
  ⟨rfl, rfl, rfl, rfl, rfl, rfl⟩

/-- C9.  In the lifecycle machine: `start()` before a successful
`initialize()` leaves the state unchanged (so never out of
`INITIALIZING`/`ERROR`); the machine reaches `STOPPED` only from `STOPPING`
at a tick boundary with no tick left in flight; and every step follows an
allowed transition (`INITIALIZING → RUNNING` after successful init,
`RUNNING ⇄ PAUSED`, `RUNNING → STOPPING → STOPPED`, faults to `ERROR`, and a
fresh `initialize()` re-entering `INITIALIZING`). -/
theorem simulator_lifecycle_transitions (m : SimulatorModel) (e : SimEvent) :
    (e = SimEvent.start → m.init_done = false →
      (simStep m e).state = m.state) ∧
    ((simStep m e).state = SimulationState.STOPPED →
      m.state = SimulationState.STOPPED ∨
        (m.state = SimulationState.STOPPING ∧ e = SimEvent.tick_end ∧
          (simStep m e).tick_in_flight = false)) ∧
    allowedTransition m.state (simStep m e).state := by
  rcases m with ⟨s, i, t⟩
  cases s <;> cases i <;> cases t <;> cases e <;> decide

/-- Witness for C9: `start()` in `INITIALIZING` before `initialize()` has
succeeded leaves the machine in `INITIALIZING`. -/
theorem simulator_lifecycle_transitions_witness :
    (simStep ⟨SimulationState.INITIALIZING, false, false⟩
        SimEvent.start).state = SimulationState.INITIALIZING :=
  (simulator_lifecycle_transitions
    ⟨SimulationState.INITIALIZING, false, false⟩ SimEvent.start).1 rfl rfl

/-- C10.  Neither update increments `opportunities_executed`; `reset` leaves
it at `0`; and any update invoked while it is `0` (e.g. the first update
after construction or `reset()`) evaluates a division with divisor `0`, so
under exact arithmetic the checked updates produce no finite result. -/
theorem stats_update_divides_by_opportunities_executed (s : StrategyStats)
    (p g t : ℚ) :
    (update_success p g t s).opportunities_executed
        = s.opportunities_executed ∧
    (update_failure t s).opportunities_executed
        = s.opportunities_executed ∧
    (StrategyStats.reset s).opportunities_executed = 0 ∧
    (s.opportunities_executed = 0 →
      update_success? p g t s = none ∧ update_failure? t s = none) := by
  refine ⟨rfl, rfl, rfl, fun h => ⟨?_, ?_⟩⟩
  · simp [update_success?, qdiv?, h]
  · simp [update_failure?, qdiv?, h]

/-- Witness for C10: the first update after reset divides by the zero
`opportunities_executed`. -/
theorem stats_update_divides_by_opportunities_executed_witness :
    update_success? 1 1 1 resetStats = none ∧
      update_failure? 1 resetStats = none :=
  (stats_update_divides_by_opportunities_executed resetStats 1 1 1).2.2.2 rfl

end mev
